import Mathlib

/-!
# Verification of the project-auth backend (server.js)

Shallow embedding of the Express/Mongoose/bcrypt authentication backend.
The persisted collection of `User` documents is a `List User` in insertion
order; `User.findOne` is `List.find?` on that list (Mongoose returns the
first matching document in natural order, and drops `undefined` keys from
a query filter, so a filter whose only key is `undefined` matches every
document).  The nondeterministic external inputs of a request — the fresh
bcrypt salt from `genSaltSync()`, the random token from
`crypto.randomBytes(128).toString("hex")`, the fresh `_id`, and whether the
store raises — are explicit parameters.  Missing request fields
(`req.body.name`, `req.body.password`, the `Authorization` header) are
`Option.none`.
-/

/-- A persisted document of the `User` Mongoose model: `name` (required,
unique), `password` (the bcrypt digest stored by the register handler),
`accessToken` (assigned once at creation from the schema default), and the
document id `_id` (modelled as a `Nat`). -/
structure User where
  name : String
  password : String
  accessToken : String
  id : Nat
deriving DecidableEq

/-- Interface of the external bcrypt library as used by the handlers:
`hashSync plaintext salt` and `compareSync plaintext digest`.  The handlers
are parametric in it; theorems assume only the documented round-trip
contract of the library where they need it. -/
structure Bcrypt where
  hashSync : String → String → String
  compareSync : String → String → Bool

/-- Mongoose filter `{ name: n }`: an `undefined` (`none`) value is dropped
from the query, so the filter matches every document; otherwise it matches
documents whose `name` equals the given string. -/
def matchName : Option String → User → Bool
  | none, _ => true
  | some n, u => u.name == n

/-- Mongoose filter `{ accessToken: t }`: an `undefined` (`none`) value is
dropped from the query, so the filter matches every document; otherwise it
matches documents whose `accessToken` equals the given string. -/
def matchToken : Option String → User → Bool
  | none, _ => true
  | some t, u => u.accessToken == t

/-- `User.findOne(filter)`: first document of the collection satisfying the
filter, in natural (insertion) order. -/
def findOne (p : User → Bool) (db : List User) : Option User :=
  db.find? p

/-- The ValidateToken operation of the spec: the lookup
`User.findOne({ accessToken })` performed by the `GET /secrets` handler and
by `authenticateUser`. -/
def validateToken (db : List User) (t : Option String) : Option User :=
  findOne (matchToken t) db

/-- Response of `POST /register`: `201 {name, id, accessToken}` on success,
or the single could-not-create-user 400 branch of the `catch` in the
handler (taken for a missing/invalid field, a duplicate name, or a store
failure alike). -/
inductive RegisterRes where
  | created (name : String) (id : Nat) (accessToken : String)
  | clientError
deriving DecidableEq

/-- Response of `POST /login`: `200 {name, id, accessToken}`,
`400 "Credentials do not match"`, or the `catch` branch `500`. -/
inductive LoginRes where
  | ok (name : String) (id : Nat) (accessToken : String)
  | credsMismatch
  | serverErr
deriving DecidableEq

/-- Response of `GET /secrets`: `200 {secret}`,
`401 {success:false, response:"Please log in", loggedOut:true}`, or the
`catch` branch `500`. -/
inductive SecretsRes where
  | secretOk (secret : String)
  | unauthorized
  | serverErr
deriving DecidableEq

/-- Body sent by `POST /sessions` (always status 200):
`{userId, accessToken}` or `{notFound:true}`.  The handler has no
`try/catch`, so a raising store means no response at all — the result of
the endpoint is therefore an `Option SessionsRes`. -/
inductive SessionsRes where
  | found (userId : Nat) (accessToken : String)
  | notFound
deriving DecidableEq

/-- Outcome of the `authenticateUser` middleware: calls `next()`, sends the
`401 loggedOut` response, or sends the `catch` branch `500`. -/
inductive AuthRes where
  | next
  | unauthorized
  | serverErr
deriving DecidableEq

/-- The fixed secret string of the `GET /secrets` handler. -/
def secretMessage : String := "This is the secret page! Woop woop"

/-- HTTP status of a `POST /register` response. -/
def registerStatus : RegisterRes → Nat
  | .created .. => 201
  | .clientError => 400

/-- HTTP status of a `POST /login` response. -/
def loginStatus : LoginRes → Nat
  | .ok .. => 200
  | .credsMismatch => 400
  | .serverErr => 500

/-- HTTP status of a `GET /secrets` response. -/
def secretsStatus : SecretsRes → Nat
  | .secretOk _ => 200
  | .unauthorized => 401
  | .serverErr => 500

/-- Whether a `GET /secrets` response body carries `loggedOut: true`. -/
def secretsLoggedOut : SecretsRes → Bool
  | .unauthorized => true
  | _ => false

/-- `POST /register` handler.  `bcrypt.hashSync` throws on an `undefined`
password; `.save()` rejects on a missing or empty required `name` (Mongoose
`required` fails on the empty string), on a violated unique index for
`name`, and when the store raises; every throw reaches the single `catch`,
which replies 400 and persists nothing.  On success the new document —
with `password` the digest of the fresh salt and `accessToken` the fresh
random value of the schema default — is appended, and `201 {name, id,
accessToken}` is returned. -/
def register (B : Bcrypt) (db : List User) (name password : Option String)
    (salt accessToken : String) (newId : Nat) (storeFault : Bool) :
    RegisterRes × List User :=
  match password with
  | none => (RegisterRes.clientError, db)
  | some pw =>
    let digest := B.hashSync pw salt
    match name with
    | none => (RegisterRes.clientError, db)
    | some n =>
      if n == "" then (RegisterRes.clientError, db)
      else if storeFault then (RegisterRes.clientError, db)
      else if db.any (fun a => a.name == n) then (RegisterRes.clientError, db)
      else (RegisterRes.created n newId accessToken,
            db ++ [{ name := n, password := digest, accessToken := accessToken, id := newId }])

/-- `POST /login` handler: `findOne({name})`, then
`user && bcrypt.compareSync(password, user.password)`.  A raising store or
a `compareSync` throw (password `undefined` with a user found) reaches the
`catch` (500); a null user or a failed comparison replies
`400 "Credentials do not match"`; success replies
`200 {name, id, accessToken}` of the stored document. -/
def login (B : Bcrypt) (db : List User) (name password : Option String)
    (storeFault : Bool) : LoginRes :=
  if storeFault then LoginRes.serverErr
  else
    match findOne (matchName name) db with
    | some u =>
      match password with
      | none => LoginRes.serverErr
      | some pw =>
        if B.compareSync pw u.password then LoginRes.ok u.name u.id u.accessToken
        else LoginRes.credsMismatch
    | none => LoginRes.credsMismatch

/-- `GET /secrets` handler: `findOne({accessToken})` on the `Authorization`
header; a found user gets `200 {secret: secretMessage}`, a null user gets
the `401 loggedOut` reply, a raising store reaches the `catch` (500). -/
def secrets (db : List User) (token : Option String) (storeFault : Bool) :
    SecretsRes :=
  if storeFault then SecretsRes.serverErr
  else
    match validateToken db token with
    | some _ => SecretsRes.secretOk secretMessage
    | none => SecretsRes.unauthorized

/-- `POST /sessions` handler: same lookup and comparison as `POST /login`,
but replies `{userId, accessToken}` or `{notFound:true}` (status 200), and
has no `try/catch` — a rejecting store or a `compareSync` throw leaves the
request without a response (`none`). -/
def sessions (B : Bcrypt) (db : List User) (name password : Option String)
    (storeFault : Bool) : Option SessionsRes :=
  if storeFault then none
  else
    match findOne (matchName name) db with
    | some u =>
      match password with
      | none => none
      | some pw =>
        if B.compareSync pw u.password then some (SessionsRes.found u.id u.accessToken)
        else some SessionsRes.notFound
    | none => some SessionsRes.notFound

/-- The (unused) `authenticateUser` middleware: `findOne({accessToken})` on
the `Authorization` header; a found user means `next()`, a null user the
`401 loggedOut` reply, a raising store the `catch` (500). -/
def authenticateUser (db : List User) (token : Option String)
    (storeFault : Bool) : AuthRes :=
  if storeFault then AuthRes.serverErr
  else
    match validateToken db token with
    | some _ => AuthRes.next
    | none => AuthRes.unauthorized

/-- Whether a `POST /login` response is the success response. -/
def loginSuccess : LoginRes → Bool
  | .ok .. => true
  | _ => false

/-- Whether a `POST /sessions` outcome is the success body. -/
def sessionsSuccess : Option SessionsRes → Bool
  | some (.found ..) => true
  | _ => false

/-- Number of persisted documents with the given name. -/
def countByName (db : List User) (n : String) : Nat :=
  (db.filter (fun a => a.name == n)).length

/-- A request to one of the endpoints, with the request-supplied and
request-fresh data it carries. -/
inductive Op where
  | opRegister (name password : Option String) (salt accessToken : String) (newId : Nat)
  | opLogin (name password : Option String)
  | opSecrets (token : Option String)
  | opSessions (name password : Option String)
  | opAuth (token : Option String)
deriving DecidableEq

/-- Whether the request is a `POST /register` request. -/
def Op.isRegister : Op → Bool
  | .opRegister .. => true
  | _ => false

/-- The response of any one request, tagged by endpoint. -/
inductive Response where
  | reg : RegisterRes → Response
  | log : LoginRes → Response
  | sec : SecretsRes → Response
  | ses : Option SessionsRes → Response
  | auth : AuthRes → Response
deriving DecidableEq

/-- One request handled against the store: the response together with the
store contents afterwards.  Only `POST /register` writes (`.save()`); every
other handler only calls `findOne`. -/
def step (B : Bcrypt) (db : List User) : Op → Bool → Response × List User
  | .opRegister n p s t i, f =>
    let r := register B db n p s t i f
    (Response.reg r.1, r.2)
  | .opLogin n p, f => (Response.log (login B db n p f), db)
  | .opSecrets t, f => (Response.sec (secrets db t f), db)
  | .opSessions n p, f => (Response.ses (sessions B db n p f), db)
  | .opAuth t, f => (Response.auth (authenticateUser db t f), db)

/-- A concrete executable stand-in for the bcrypt library, used to evaluate
the theorems at concrete inputs: the digest is the salt, a `"$"`, and the
plaintext, and comparison checks the digest against the two salts used in
the witnesses. -/
def modelHash (pw salt : String) : String := salt ++ "$" ++ pw

/-- Comparison for `modelHash` digests over the witness salts `"s"` and
`"u"`. -/
def modelCompare (pw digest : String) : Bool :=
  digest == "s$" ++ pw || digest == "u$" ++ pw

/-- The concrete `Bcrypt` instance built from `modelHash`/`modelCompare`. -/
def modelBcrypt : Bcrypt :=
  { hashSync := modelHash, compareSync := modelCompare }

/-- If no document of the collection is named `n`, the Mongoose lookup
`findOne({name: n})` returns null. -/
theorem find?_matchName_eq_none {db : List User} {n : String}
    (h : db.any (fun a => a.name == n) = false) :
    db.find? (matchName (some n)) = none := by
  rw [List.find?_eq_none]
  intro x hx
  simpa [matchName] using (List.any_eq_false.mp h x hx)

/-- Claim C1: for every presented token, `GET /secrets` returns the fixed
secret string with status 200 if and only if some persisted document has
that stored `accessToken`; for a token stored by no document the lookup
(ValidateToken) returns null and the endpoint replies 401 with
`loggedOut:true`. -/
theorem secrets_granted_iff_token_stored (db : List User) (t : String) :
    (secrets db (some t) false = SecretsRes.secretOk secretMessage
        ↔ ∃ a ∈ db, a.accessToken = t)
    ∧ (secretsStatus (secrets db (some t) false) = 200 ↔ ∃ a ∈ db, a.accessToken = t)
    ∧ (validateToken db (some t) = none ↔ ¬ ∃ a ∈ db, a.accessToken = t)
    ∧ (secrets db (some t) false = SecretsRes.unauthorized ↔ validateToken db (some t) = none)
    ∧ (secretsLoggedOut (secrets db (some t) false) = true ↔ validateToken db (some t) = none) := by
  have key : validateToken db (some t) = none ↔ ¬ ∃ a ∈ db, a.accessToken = t := by
    simp [validateToken, findOne, matchToken]
  cases h : validateToken db (some t) with
  | none =>
    have hne : ¬ ∃ a ∈ db, a.accessToken = t := key.mp h
    have hsec : secrets db (some t) false = SecretsRes.unauthorized := by
      simp [secrets, h]
    rw [hsec]
    refine ⟨iff_of_false (by simp) hne, iff_of_false (by simp [secretsStatus]) hne,
      iff_of_true rfl hne, iff_of_true rfl rfl, iff_of_true rfl rfl⟩
  | some u =>
    have h' : db.find? (matchToken (some t)) = some u := h
    have hp : u.accessToken = t := by
      simpa [matchToken] using List.find?_some h'
    have hex : ∃ a ∈ db, a.accessToken = t :=
      ⟨u, List.mem_of_find?_eq_some h', hp⟩
    have hsec : secrets db (some t) false = SecretsRes.secretOk secretMessage := by
      simp [secrets, h]
    rw [hsec]
    refine ⟨iff_of_true rfl hex, iff_of_true (by simp [secretsStatus]) hex,
      iff_of_false (by simp) (fun hn => hn hex),
      iff_of_false (by simp) (by simp),
      iff_of_false (by simp [secretsLoggedOut]) (by simp)⟩

/-- Witness for C1 at a one-document store and its stored token. -/
theorem secrets_granted_iff_token_stored_witness :
    secrets [⟨"a", "d", "tok", 0⟩] (some "tok") false
      = SecretsRes.secretOk secretMessage :=
  (secrets_granted_iff_token_stored [⟨"a", "d", "tok", 0⟩] "tok").1.mpr
    ⟨⟨"a", "d", "tok", 0⟩, by simp, rfl⟩

/-- Claim C2: after a successful `POST /register`, a subsequent successful
`POST /login` with the same credentials returns the identical stored
`accessToken` that register returned — no new token is issued.  Assumes the
bcrypt round-trip contract for the registered plaintext and salt, a
nonempty name, and that the name was free (which successful registration
guarantees). -/
theorem register_then_login_same_token (B : Bcrypt) (db : List User)
    (n pw salt tok : String) (id : Nat)
    (hrt : B.compareSync pw (B.hashSync pw salt) = true)
    (hn : (n == "") = false)
    (hdup : db.any (fun a => a.name == n) = false) :
    (register B db (some n) (some pw) salt tok id false).1
        = RegisterRes.created n id tok
    ∧ login B (register B db (some n) (some pw) salt tok id false).2
        (some n) (some pw) false = LoginRes.ok n id tok := by
  have hreg : register B db (some n) (some pw) salt tok id false
      = (RegisterRes.created n id tok,
         db ++ [⟨n, B.hashSync pw salt, tok, id⟩]) := by
    simp [register, hn, hdup]
  refine ⟨by rw [hreg], ?_⟩
  rw [hreg]
  have hfind : (db ++ [(⟨n, B.hashSync pw salt, tok, id⟩ : User)]).find? (matchName (some n))
      = some (⟨n, B.hashSync pw salt, tok, id⟩ : User) := by
    rw [List.find?_append, find?_matchName_eq_none hdup]
    simp [matchName]
  simp [login, findOne, hfind, hrt, -List.find?_append]

/-- Witness for C2 with the executable model hasher. -/
theorem register_then_login_same_token_witness :
    (register modelBcrypt [] (some "a") (some "pw") "s" "t" 7 false).1
        = RegisterRes.created "a" 7 "t"
    ∧ login modelBcrypt (register modelBcrypt [] (some "a") (some "pw") "s" "t" 7 false).2
        (some "a") (some "pw") false = LoginRes.ok "a" 7 "t" :=
  register_then_login_same_token modelBcrypt [] "a" "pw" "s" "t" 7
    (by decide) (by decide) (by decide)

/-- Claim C3: `POST /register` replies with the 400 validation error when
the name is missing, when the password is missing, and when the name
duplicates an existing document, and in each case persists nothing; after
registering the same name twice the store holds exactly one document with
that name. -/
theorem register_duplicate_and_missing_fields (B : Bcrypt) (db db2 : List User)
    (n m pw pw2 salt tok salt2 tok2 : String) (id id2 : Nat)
    (hn : (n == "") = false)
    (hdup : db.any (fun a => a.name == n) = false)
    (hdupm : db2.any (fun a => a.name == m) = true) :
    register B db none (some pw) salt tok id false = (RegisterRes.clientError, db)
    ∧ register B db (some n) none salt tok id false = (RegisterRes.clientError, db)
    ∧ register B db2 (some m) (some pw) salt tok id false = (RegisterRes.clientError, db2)
    ∧ register B ((register B db (some n) (some pw) salt tok id false).2)
        (some n) (some pw2) salt2 tok2 id2 false
        = (RegisterRes.clientError, (register B db (some n) (some pw) salt tok id false).2)
    ∧ countByName (register B db (some n) (some pw) salt tok id false).2 n = 1 := by
  have hreg : (register B db (some n) (some pw) salt tok id false).2
      = db ++ [⟨n, B.hashSync pw salt, tok, id⟩] := by
    simp [register, hn, hdup]
  have hfilter : db.filter (fun a => a.name == n) = [] := by
    rw [List.filter_eq_nil_iff]
    intro a ha
    simpa using (List.any_eq_false.mp hdup a ha)
  refine ⟨rfl, rfl, by simp [register, hdupm], ?_, ?_⟩
  · rw [hreg]
    have hany : (db ++ [(⟨n, B.hashSync pw salt, tok, id⟩ : User)]).any
        (fun a => a.name == n) = true := by
      simp
    simp [register, hn, hany]
  · rw [hreg]
    simp [countByName, List.filter_append, hfilter]

/-- Witness for C3: the second registration of the same name fails and the
store keeps exactly one document with that name. -/
theorem register_duplicate_and_missing_fields_witness :
    register modelBcrypt (register modelBcrypt [] (some "a") (some "pw") "s" "t" 0 false).2
        (some "a") (some "pw2") "u" "t2" 1 false
      = (RegisterRes.clientError,
         (register modelBcrypt [] (some "a") (some "pw") "s" "t" 0 false).2)
    ∧ countByName (register modelBcrypt [] (some "a") (some "pw") "s" "t" 0 false).2 "a" = 1 := by
  have h := register_duplicate_and_missing_fields modelBcrypt [] [⟨"b", "d", "t3", 1⟩]
    "a" "b" "pw" "pw2" "s" "t" "u" "t2" 0 1 (by decide) (by decide) (by decide)
  exact ⟨h.2.2.2.1, h.2.2.2.2⟩

/-- Claim C4: a `POST /login` that fails because the name is absent from
the store and one that fails because the hash comparison fails produce the
same response — the 400 credentials-do-not-match reply — so the two failure
branches are indistinguishable to the caller. -/
theorem login_failure_indistinguishable (B : Bcrypt) (db1 db2 : List User)
    (n1 pw1 n2 pw2 : String) (u : User)
    (h1 : db1.find? (matchName (some n1)) = none)
    (h2 : db2.find? (matchName (some n2)) = some u)
    (h2c : B.compareSync pw2 u.password = false) :
    login B db1 (some n1) (some pw1) false = login B db2 (some n2) (some pw2) false
    ∧ login B db1 (some n1) (some pw1) false = LoginRes.credsMismatch
    ∧ loginStatus (login B db2 (some n2) (some pw2) false) = 400 := by
  have e1 : login B db1 (some n1) (some pw1) false = LoginRes.credsMismatch := by
    simp [login, findOne, h1]
  have e2 : login B db2 (some n2) (some pw2) false = LoginRes.credsMismatch := by
    simp [login, findOne, h2, h2c]
  exact ⟨by rw [e1, e2], e1, by rw [e2]; rfl⟩

/-- Witness for C4: unknown name versus wrong password, equal responses. -/
theorem login_failure_indistinguishable_witness :
    login modelBcrypt [] (some "x") (some "q") false
        = login modelBcrypt [⟨"a", "s$pw", "t", 0⟩] (some "a") (some "wrong") false
    ∧ login modelBcrypt [] (some "x") (some "q") false = LoginRes.credsMismatch
    ∧ loginStatus (login modelBcrypt [⟨"a", "s$pw", "t", 0⟩] (some "a") (some "wrong") false)
        = 400 :=
  login_failure_indistinguishable modelBcrypt [] [⟨"a", "s$pw", "t", 0⟩]
    "x" "q" "a" "wrong" ⟨"a", "s$pw", "t", 0⟩ (by decide) (by decide) (by decide)

/-- Claim C5: a successful `POST /register` stores the fresh-salt digest as
the password, stores the freshly generated token, appends exactly one new
document leaving every other document unchanged, and replies 201 with the
name, the new id and the new token. -/
theorem register_success_persists_one_record (B : Bcrypt) (db : List User)
    (n pw salt tok : String) (id : Nat)
    (hn : (n == "") = false)
    (hdup : db.any (fun a => a.name == n) = false) :
    register B db (some n) (some pw) salt tok id false
      = (RegisterRes.created n id tok,
         db ++ [{ name := n, password := B.hashSync pw salt, accessToken := tok, id := id }])
    ∧ registerStatus (register B db (some n) (some pw) salt tok id false).1 = 201 := by
  have hreg : register B db (some n) (some pw) salt tok id false
      = (RegisterRes.created n id tok,
         db ++ [⟨n, B.hashSync pw salt, tok, id⟩]) := by
    simp [register, hn, hdup]
  exact ⟨hreg, by rw [hreg]; rfl⟩

/-- Witness for C5 with the executable model hasher. -/
theorem register_success_persists_one_record_witness :
    register modelBcrypt [] (some "a") (some "pw") "s" "t" 0 false
      = (RegisterRes.created "a" 0 "t",
         [] ++ [{ name := "a", password := modelBcrypt.hashSync "pw" "s",
                  accessToken := "t", id := 0 }])
    ∧ registerStatus (register modelBcrypt [] (some "a") (some "pw") "s" "t" 0 false).1
        = 201 :=
  register_success_persists_one_record modelBcrypt [] "a" "pw" "s" "t" 0
    (by decide) (by decide)

/-- Claim C6: after two valid registrations of the same plaintext under
different names, each stored password is the digest of the fresh salt of
that same call (so the two stored digests differ whenever the hasher maps the
two salts to different digests, and neither equals the plaintext by the
bcrypt contract), while `POST /login` succeeds for both accounts against
the plaintext. -/
theorem salted_digests_and_double_login (B : Bcrypt) (db : List User)
    (n1 n2 pw s1 s2 t1 t2 : String) (id1 id2 : Nat)
    (hne1 : B.hashSync pw s1 ≠ pw) (hne2 : B.hashSync pw s2 ≠ pw)
    (hrt1 : B.compareSync pw (B.hashSync pw s1) = true)
    (hrt2 : B.compareSync pw (B.hashSync pw s2) = true)
    (hn1 : (n1 == "") = false) (hn2 : (n2 == "") = false)
    (hd1 : db.any (fun a => a.name == n1) = false)
    (hd2 : ((register B db (some n1) (some pw) s1 t1 id1 false).2).any
        (fun a => a.name == n2) = false) :
    (register B (register B db (some n1) (some pw) s1 t1 id1 false).2
        (some n2) (some pw) s2 t2 id2 false).2
      = db ++ [⟨n1, B.hashSync pw s1, t1, id1⟩, ⟨n2, B.hashSync pw s2, t2, id2⟩]
    ∧ (∀ a ∈ (register B (register B db (some n1) (some pw) s1 t1 id1 false).2
        (some n2) (some pw) s2 t2 id2 false).2, a ∈ db ∨ a.password ≠ pw)
    ∧ login B (register B (register B db (some n1) (some pw) s1 t1 id1 false).2
        (some n2) (some pw) s2 t2 id2 false).2 (some n1) (some pw) false
        = LoginRes.ok n1 id1 t1
    ∧ login B (register B (register B db (some n1) (some pw) s1 t1 id1 false).2
        (some n2) (some pw) s2 t2 id2 false).2 (some n2) (some pw) false
        = LoginRes.ok n2 id2 t2 := by
  have hreg1 : (register B db (some n1) (some pw) s1 t1 id1 false).2
      = db ++ [(⟨n1, B.hashSync pw s1, t1, id1⟩ : User)] := by
    simp [register, hn1, hd1]
  rw [hreg1] at hd2
  have hd2a : db.any (fun a => a.name == n2) = false := by
    rw [List.any_append] at hd2
    exact (Bool.or_eq_false_iff.mp hd2).1
  have hn1n2 : (n1 == n2) = false := by
    rw [List.any_append] at hd2
    have := (Bool.or_eq_false_iff.mp hd2).2
    simpa using this
  have hreg2 : (register B (db ++ [(⟨n1, B.hashSync pw s1, t1, id1⟩ : User)])
      (some n2) (some pw) s2 t2 id2 false).2
      = db ++ [(⟨n1, B.hashSync pw s1, t1, id1⟩ : User),
               (⟨n2, B.hashSync pw s2, t2, id2⟩ : User)] := by
    simp [register, hn2, hd2]
  have hdb2 : (register B (register B db (some n1) (some pw) s1 t1 id1 false).2
      (some n2) (some pw) s2 t2 id2 false).2
      = db ++ [(⟨n1, B.hashSync pw s1, t1, id1⟩ : User),
               (⟨n2, B.hashSync pw s2, t2, id2⟩ : User)] := by
    rw [hreg1, hreg2]
  rw [hdb2]
  have hfind1 : (db ++ [(⟨n1, B.hashSync pw s1, t1, id1⟩ : User),
      (⟨n2, B.hashSync pw s2, t2, id2⟩ : User)]).find? (matchName (some n1))
      = some (⟨n1, B.hashSync pw s1, t1, id1⟩ : User) := by
    rw [List.find?_append, find?_matchName_eq_none hd1]
    simp [matchName]
  have hfind2 : (db ++ [(⟨n1, B.hashSync pw s1, t1, id1⟩ : User),
      (⟨n2, B.hashSync pw s2, t2, id2⟩ : User)]).find? (matchName (some n2))
      = some (⟨n2, B.hashSync pw s2, t2, id2⟩ : User) := by
    rw [List.find?_append, find?_matchName_eq_none hd2a]
    simp [matchName, hn1n2]
  refine ⟨rfl, ?_, ?_, ?_⟩
  · intro a ha
    rw [List.mem_append] at ha
    rcases ha with ha | ha
    · exact Or.inl ha
    · simp only [List.mem_cons, List.not_mem_nil, or_false] at ha
      rcases ha with ha | ha
      · exact Or.inr (by rw [ha]; exact hne1)
      · exact Or.inr (by rw [ha]; exact hne2)
  · simp [login, findOne, hfind1, hrt1, -List.find?_append]
  · simp [login, findOne, hfind2, hrt2, -List.find?_append]

/-- Witness for C6: the model hasher maps the two salts to two distinct
digests and both logins succeed. -/
theorem salted_digests_and_double_login_witness :
    modelBcrypt.hashSync "pw" "s" ≠ modelBcrypt.hashSync "pw" "u"
    ∧ login modelBcrypt
        (register modelBcrypt (register modelBcrypt [] (some "a") (some "pw") "s" "t1" 0 false).2
          (some "b") (some "pw") "u" "t2" 1 false).2 (some "a") (some "pw") false
        = LoginRes.ok "a" 0 "t1"
    ∧ login modelBcrypt
        (register modelBcrypt (register modelBcrypt [] (some "a") (some "pw") "s" "t1" 0 false).2
          (some "b") (some "pw") "u" "t2" 1 false).2 (some "b") (some "pw") false
        = LoginRes.ok "b" 1 "t2" := by
  have h := salted_digests_and_double_login modelBcrypt [] "a" "b" "pw" "s" "u" "t1" "t2" 0 1
    (by decide) (by decide) (by decide) (by decide) (by decide) (by decide)
    (by decide) (by decide)
  exact ⟨by decide, h.2.2.1, h.2.2.2⟩

/-- Claim C7: no request other than `POST /register` ever changes the
store — every persisted document keeps its name, password digest and
access token — and `POST /register` only ever appends, so existing
documents are never updated, rotated or deleted and the access token of a
document is the one assigned at its creation. -/
theorem accounts_never_mutated (B : Bcrypt) (db : List User) (op : Op) (f : Bool) :
    (∃ rest, (step B db op f).2 = db ++ rest)
    ∧ (Op.isRegister op = false → (step B db op f).2 = db) := by
  cases op with
  | opRegister n p s t i =>
    refine ⟨?_, fun h => by simp [Op.isRegister] at h⟩
    cases p with
    | none => exact ⟨[], by simp [step, register]⟩
    | some pw =>
      cases n with
      | none => exact ⟨[], by simp [step, register]⟩
      | some nm =>
        by_cases he : (nm == "") = true
        · exact ⟨[], by simp [step, register, he]⟩
        · rw [Bool.not_eq_true] at he
          cases f with
          | true => exact ⟨[], by simp [step, register, he]⟩
          | false =>
            by_cases hd : db.any (fun a => a.name == nm) = true
            · exact ⟨[], by simp [step, register, he, hd]⟩
            · rw [Bool.not_eq_true] at hd
              exact ⟨[⟨nm, B.hashSync pw s, t, i⟩], by simp [step, register, he, hd]⟩
  | opLogin n p => exact ⟨⟨[], by simp [step]⟩, fun _ => rfl⟩
  | opSecrets t => exact ⟨⟨[], by simp [step]⟩, fun _ => rfl⟩
  | opSessions n p => exact ⟨⟨[], by simp [step]⟩, fun _ => rfl⟩
  | opAuth t => exact ⟨⟨[], by simp [step]⟩, fun _ => rfl⟩

/-- Witness for C7 at a login request against a one-document store. -/
theorem accounts_never_mutated_witness :
    (∃ rest, (step modelBcrypt [⟨"a", "d", "t", 0⟩]
        (Op.opLogin (some "a") (some "x")) false).2 = [⟨"a", "d", "t", 0⟩] ++ rest)
    ∧ (Op.isRegister (Op.opLogin (some "a") (some "x")) = false →
        (step modelBcrypt [⟨"a", "d", "t", 0⟩]
          (Op.opLogin (some "a") (some "x")) false).2 = [⟨"a", "d", "t", 0⟩]) :=
  accounts_never_mutated modelBcrypt [⟨"a", "d", "t", 0⟩]
    (Op.opLogin (some "a") (some "x")) false

/-- Claim C8: for the same name and password, `POST /sessions` sends its
success body exactly when `POST /login` sends its success response; on
success both carry the same stored user id and the same stored access
token; and when the credentials fail under a working store, `POST
/sessions` sends the not-found body. -/
theorem sessions_equivalent_to_login (B : Bcrypt) (db : List User)
    (n pw : String) (f : Bool) :
    loginSuccess (login B db (some n) (some pw) f)
      = sessionsSuccess (sessions B db (some n) (some pw) f)
    ∧ (∀ u, db.find? (matchName (some n)) = some u →
        B.compareSync pw u.password = true → f = false →
        login B db (some n) (some pw) f = LoginRes.ok u.name u.id u.accessToken
        ∧ sessions B db (some n) (some pw) f
            = some (SessionsRes.found u.id u.accessToken))
    ∧ (f = false → loginSuccess (login B db (some n) (some pw) f) = false →
        sessions B db (some n) (some pw) f = some SessionsRes.notFound) := by
  cases f with
  | true =>
    refine ⟨by simp [login, sessions, loginSuccess, sessionsSuccess], ?_, ?_⟩
    · intro u _ _ hf; cases hf
    · intro hf; cases hf
  | false =>
    cases hfind : db.find? (matchName (some n)) with
    | none =>
      refine ⟨?_, ?_, ?_⟩
      · simp [login, sessions, findOne, hfind, loginSuccess, sessionsSuccess]
      · intro u hu; exact Option.noConfusion hu
      · intro _ _; simp [sessions, findOne, hfind]
    | some u =>
      by_cases hc : B.compareSync pw u.password = true
      · refine ⟨?_, ?_, ?_⟩
        · simp [login, sessions, findOne, hfind, hc, loginSuccess, sessionsSuccess]
        · intro v hv hcv _
          cases hv
          constructor
          · simp [login, findOne, hfind, hc]
          · simp [sessions, findOne, hfind, hc]
        · intro _ hls
          rw [show login B db (some n) (some pw) false
              = LoginRes.ok u.name u.id u.accessToken by
            simp [login, findOne, hfind, hc]] at hls
          simp [loginSuccess] at hls
      · rw [Bool.not_eq_true] at hc
        refine ⟨?_, ?_, ?_⟩
        · simp [login, sessions, findOne, hfind, hc, loginSuccess, sessionsSuccess]
        · intro v hv hcv _
          cases hv
          rw [hcv] at hc
          cases hc
        · intro _ _; simp [sessions, findOne, hfind, hc]

/-- Witness for C8 at a one-document store with matching credentials. -/
theorem sessions_equivalent_to_login_witness :
    loginSuccess (login modelBcrypt [⟨"a", "s$pw", "t", 0⟩] (some "a") (some "pw") false)
      = sessionsSuccess (sessions modelBcrypt [⟨"a", "s$pw", "t", 0⟩]
          (some "a") (some "pw") false) :=
  (sessions_equivalent_to_login modelBcrypt [⟨"a", "s$pw", "t", 0⟩] "a" "pw" false).1

/-- Counterexample to claim C9 as stated: a persistence failure during
`POST /register` is answered with the 400 client error, not a server
error, and a persistence failure during `POST /sessions` — whose handler
has no catch — produces no response to the caller at all. -/
theorem store_failure_responses_counterexample :
    register modelBcrypt [] (some "a") (some "pw") "s" "t" 0 true
      = (RegisterRes.clientError, [])
    ∧ registerStatus RegisterRes.clientError = 400
    ∧ sessions modelBcrypt [⟨"a", "s$pw", "t", 0⟩] (some "a") (some "pw") true = none := by
  exact ⟨by decide, rfl, by decide⟩

/-- Claim C9 amended: a persistence failure is reported synchronously as a
500 server error by `POST /login`, `GET /secrets` and the
`authenticateUser` middleware; `POST /register` reports it synchronously
as its 400 client error and persists nothing; `POST /sessions` sends no
response; nothing is retried anywhere. -/
theorem store_failure_surfacing (B : Bcrypt) (db : List User)
    (n pw t salt tok : String) (id : Nat) :
    login B db (some n) (some pw) true = LoginRes.serverErr
    ∧ loginStatus (login B db (some n) (some pw) true) = 500
    ∧ secrets db (some t) true = SecretsRes.serverErr
    ∧ secretsStatus (secrets db (some t) true) = 500
    ∧ register B db (some n) (some pw) salt tok id true = (RegisterRes.clientError, db)
    ∧ registerStatus (register B db (some n) (some pw) salt tok id true).1 = 400
    ∧ sessions B db (some n) (some pw) true = none
    ∧ authenticateUser db (some t) true = AuthRes.serverErr := by
  have hreg : register B db (some n) (some pw) salt tok id true
      = (RegisterRes.clientError, db) := by
    by_cases he : (n == "") = true
    · simp [register, he]
    · rw [Bool.not_eq_true] at he
      simp [register, he]
  exact ⟨rfl, rfl, rfl, rfl, hreg, by rw [hreg]; rfl, rfl, rfl⟩

/-- Claim C10: a `GET /secrets` request without an `Authorization` header
queries the store with an `undefined` token, which Mongoose drops from the
filter, so the request is granted the secret whenever at least one account
exists and is refused only on an empty store; the unused
`authenticateUser` middleware behaves the same way. -/
theorem missing_auth_header_grants_when_nonempty (db : List User) (h : db ≠ []) :
    secrets db none false = SecretsRes.secretOk secretMessage
    ∧ authenticateUser db none false = AuthRes.next
    ∧ secrets [] none false = SecretsRes.unauthorized
    ∧ authenticateUser [] none false = AuthRes.unauthorized := by
  cases db with
  | nil => exact absurd rfl h
  | cons a l => exact ⟨rfl, rfl, rfl, rfl⟩

/-- Witness for C10 at a one-document store whose token is not presented. -/
theorem missing_auth_header_grants_when_nonempty_witness :
    secrets [⟨"a", "d", "t", 0⟩] none false = SecretsRes.secretOk secretMessage
    ∧ authenticateUser [⟨"a", "d", "t", 0⟩] none false = AuthRes.next
    ∧ secrets [] none false = SecretsRes.unauthorized
    ∧ authenticateUser [] none false = AuthRes.unauthorized :=
  missing_auth_header_grants_when_nonempty [⟨"a", "d", "t", 0⟩] (by decide)
